import Mathlib

/-!
Shallow embedding of `src/locustfile.py` (Locust load-test scenarios for an
online-banking HTTP API).

The Python file drives HTTP requests and classifies each response as a
success or a failure for the metrics engine.  We embed:

  * parsed JSON bodies as the inductive `Json` (Python's `json` module maps
    JSON null to Python `None`; we use `Json.null` for both),
  * per-session mutable state (`self.token`, `self.user_id`, `self.accounts`)
    as the structure `Session`,
  * each request handler as a pure function from the current state and the
    (abstract) HTTP response to the new state plus the recorded outcome,
  * Python exceptions (`json.JSONDecodeError`, `AttributeError`, `TypeError`)
    as an explicit `PyExn` error type; handlers that catch them are total
    functions that also report whether an exception was raised and caught.

HTTP responses are abstracted as a status code plus an optional parsed JSON
body (`none` models a body on which `response.json()` raises).
-/

/-- Parsed JSON values, doubling as the Python values `response.json()`
produces.  `null` is Python `None`; objects keep their key order. -/
inductive Json where
  | null : Json
  | bool (b : Bool) : Json
  | num (n : Int) : Json
  | str (s : String) : Json
  | arr (xs : List Json) : Json
  | obj (fs : List (String × Json)) : Json

/-- Python exceptions that the script's handlers can raise and catch. -/
inductive PyExn where
  | jsonDecodeError : PyExn
  | attributeError : PyExn
  | typeError : PyExn
deriving DecidableEq, Repr

/-- An HTTP response as the script sees it: the status code (0 models a
transport failure, as Locust reports it) and the parsed JSON body, `none`
when `response.json()` would raise `json.JSONDecodeError`. -/
structure HttpResponse where
  status : Nat
  body : Option Json

/-- Python truthiness (`if value:`) on the values JSON parsing produces. -/
def pyTruthy : Json → Bool
  | .null => false
  | .bool b => b
  | .num n => n != 0
  | .str s => s != ""
  | .arr xs => !xs.isEmpty
  | .obj fs => !fs.isEmpty

/-- First binding of key `k` in an association list (Python dicts have
unique keys, so this is the dict lookup). -/
def lookupField (fs : List (String × Json)) (k : String) : Option Json :=
  (fs.find? (fun p => p.1 == k)).map Prod.snd

/-- Python `value.get(k)`: dict lookup defaulting to `None`; on a non-dict
it raises `AttributeError` (no `.get` attribute). -/
def pyGet : Json → String → Except PyExn Json
  | .obj fs, k => .ok ((lookupField fs k).getD .null)
  | _, _ => .error .attributeError

/-- Python `value.get(k, d)`: dict lookup with explicit default `d`
(a stored `None` is returned as-is, only a missing key yields `d`). -/
def pyGetD : Json → String → Json → Except PyExn Json
  | .obj fs, k, d => .ok ((lookupField fs k).getD d)
  | _, _, _ => .error .attributeError

mutual
/-- Python `==` on parsed-JSON values, used by the script only through `!=`.
Structural; dict comparison is taken in key order (Python's ignores order,
which can differ only when an `accountno` value is itself a dict with
reordered keys — then Python drops a candidate this model keeps, so every
request the script really sends is also modelled). -/
def pyEqB : Json → Json → Bool
  | .null, .null => true
  | .bool a, .bool b => a == b
  | .num a, .num b => a == b
  | .str a, .str b => a == b
  | .arr a, .arr b => pyEqBList a b
  | .obj a, .obj b => pyEqBFields a b
  | _, _ => false

/-- Elementwise `pyEqB` on lists. -/
def pyEqBList : List Json → List Json → Bool
  | [], [] => true
  | a :: as, b :: bs => pyEqB a b && pyEqBList as bs
  | _, _ => false

/-- Elementwise `pyEqB` on dict entries. -/
def pyEqBFields : List (String × Json) → List (String × Json) → Bool
  | [], [] => true
  | (k1, v1) :: as, (k2, v2) :: bs => k1 == k2 && pyEqB v1 v2 && pyEqBFields as bs
  | _, _ => false
end


mutual
/-- Python `repr` of a parsed-JSON value, as used inside `str` of a
container.  String escaping is elided: the script only ever asks whether
some ASCII word occurs in the result. -/
def pyRepr : Json → String
  | .null => "None"
  | .bool true => "True"
  | .bool false => "False"
  | .num n => toString n
  | .str s => "\x27" ++ s ++ "\x27"
  | .arr xs => "[" ++ pyReprList xs ++ "]"
  | .obj fs => "\x7b" ++ pyReprFields fs ++ "\x7d"

/-- `repr` of list elements, comma-separated. -/
def pyReprList : List Json → String
  | [] => ""
  | [x] => pyRepr x
  | x :: y :: xs => pyRepr x ++ ", " ++ pyReprList (y :: xs)

/-- `repr` of dict entries, comma-separated. -/
def pyReprFields : List (String × Json) → String
  | [] => ""
  | [(k, v)] => "\x27" ++ k ++ "\x27: " ++ pyRepr v
  | (k, v) :: f :: fs => "\x27" ++ k ++ "\x27: " ++ pyRepr v ++ ", " ++ pyReprFields (f :: fs)
end

/-- Python `str` of a parsed-JSON value: a string prints bare, everything
else prints as its `repr`. -/
def pyStr : Json → String
  | .str s => s
  | v => pyRepr v

/-- Whether `needle` is a prefix of `hay` (character lists). -/
def charsStartWith : List Char → List Char → Bool
  | [], _ => true
  | _ :: _, [] => false
  | a :: as, b :: bs => a == b && charsStartWith as bs

/-- Whether `needle` occurs as a contiguous run inside `hay`. -/
def charsContain (needle : List Char) : List Char → Bool
  | [] => charsStartWith needle []
  | c :: cs => charsStartWith needle (c :: cs) || charsContain needle cs

/-- Python `needle in hay` on strings. -/
def strContains (hay needle : String) : Bool :=
  charsContain needle.toList hay.toList

/-- Python `hay.upper()` (ASCII, which is all the script compares). -/
def strUpper (s : String) : String :=
  String.mk (s.toList.map Char.toUpper)

/-- Python `hay.lower()` (ASCII, which is all the script compares). -/
def strLower (s : String) : String :=
  String.mk (s.toList.map Char.toLower)

/-- The static fallback account numbers (`TEST_ACCOUNTS` in the script). -/
def TEST_ACCOUNTS : List Int := [1000001, 1000002, 1000003]

/-- Per-session mutable state set up in `BaseUser.on_start`: `self.token`,
`self.user_id` and `self.accounts`.  The first two hold whatever Python
value `.get` returned (`Json.null` standing for `None`); `accounts` holds
whatever `response.json()` returned, initially the empty list. -/
structure Session where
  token : Json
  user_id : Json
  accounts : Json

/-- The state `on_start` installs before calling `authenticate`. -/
def initSession : Session :=
  { token := .null, user_id := .null, accounts := .arr [] }

/-- What a handler reported to Locust for one request: `response.success()`,
`response.failure(msg)`, or neither (no request was issued / the handler
died before reporting). -/
inductive ReqOutcome where
  | success : ReqOutcome
  | failure (msg : String) : ReqOutcome
  | noRecord : ReqOutcome
deriving DecidableEq, Repr

/-- Whether an outcome is a recorded failure. -/
def ReqOutcome.isFailure : ReqOutcome → Bool
  | .failure _ => true
  | _ => false

/-- `BaseUser.validate_response(response, success_field)`: status 0 is a
transport failure; on status 200 the body is parsed (a parse error or a
`.get` on a non-dict raises and is caught, returning `True`); when a truthy
`success_field` name is given and the field's value is truthy, the value's
string form must contain `"SUCCESS"` case-insensitively; every other
status is invalid. -/
def validate_response (resp : HttpResponse) (success_field : Option String) : Bool :=
  if resp.status = 0 then false
  else if resp.status = 200 then
    match resp.body with
    | none => true
    | some data =>
      match success_field with
      | some field =>
        if field = "" then true
        else
          match pyGet data field with
          | .error _ => true
          | .ok field_value =>
            if pyTruthy field_value && strContains (strUpper (pyStr field_value)) "SUCCESS" then
              true
            else if pyTruthy field_value then
              false
            else true
      | none => true
  else false

/-- Result of one run of `BaseUser.authenticate`: the state it leaves, the
outcome it reported, and whether a Python exception was raised (and caught)
along the way. -/
structure AuthResult where
  st : Session
  outcome : ReqOutcome
  raised : Bool

/-- `BaseUser.authenticate`, given the login response.  On status 200 it
parses the body and assigns `self.token = response_data.get("jwtToken")`
and `self.user_id = response_data.get("user", \x7b\x7d).get("userId")` in
that order; a `json.JSONDecodeError` (unparseable body) or
`AttributeError` (`.get` on a non-dict) is caught by the inner handler and
reported as a failure — but assignments already made stick.  Success is
reported only when both stored values are truthy. -/
def authenticate (st : Session) (resp : HttpResponse) : AuthResult :=
  if resp.status = 0 then
    ⟨st, .failure "Connection failed - cannot reach backend. Check network configuration.", false⟩
  else if resp.status = 200 then
    match resp.body with
    | none => ⟨st, .failure "Invalid JSON response: JSONDecodeError", true⟩
    | some response_data =>
      match response_data with
      | .obj fs =>
        let st1 : Session := { st with token := (lookupField fs "jwtToken").getD .null }
        let user_data := (lookupField fs "user").getD (.obj [])
        match pyGet user_data "userId" with
        | .error _ => ⟨st1, .failure "Invalid JSON response: AttributeError", true⟩
        | .ok uid =>
          let st2 : Session := { st1 with user_id := uid }
          if pyTruthy st2.token && pyTruthy st2.user_id then
            ⟨st2, .success, false⟩
          else
            ⟨st2, .failure "Missing token or userId in response", false⟩
      | _ => ⟨st, .failure "Invalid JSON response: AttributeError", true⟩
  else if resp.status = 401 then ⟨st, .failure "Invalid credentials (401)", false⟩
  else if resp.status = 404 then ⟨st, .failure "Login endpoint not found (404)", false⟩
  else ⟨st, .failure ("Login failed with status " ++ toString resp.status), false⟩

/-- `BaseUser.get_headers`: always `Content-Type: application/json`, plus
`Authorization: Bearer <token>` when `self.token` is truthy. -/
def get_headers (st : Session) : List (String × String) :=
  let headers := [("Content-Type", "application/json")]
  if pyTruthy st.token then
    headers ++ [("Authorization", "Bearer " ++ pyStr st.token)]
  else headers

/-- Result of one run of `BaseUser.get_user_accounts`: the state it leaves,
the Python value it returns, whether it issued the HTTP fetch, and the
outcome it reported (`noRecord` when no request went out). -/
structure AccountsResult where
  st : Session
  ret : Json
  fetched : Bool
  outcome : ReqOutcome

/-- `BaseUser.get_user_accounts`, given the response the fetch would get.
Returns `[]` immediately when `self.user_id` is falsy; returns the cached
`self.accounts` without fetching when it is truthy; otherwise fetches and,
on a parseable 200 body, stores and returns it; every failing branch falls
through to `return []`. -/
def get_user_accounts (st : Session) (resp : HttpResponse) : AccountsResult :=
  if !pyTruthy st.user_id then ⟨st, .arr [], false, .noRecord⟩
  else if pyTruthy st.accounts then ⟨st, st.accounts, false, .noRecord⟩
  else if resp.status = 0 then
    ⟨st, .arr [], true, .failure "Connection failed - cannot reach backend"⟩
  else if resp.status = 200 then
    match resp.body with
    | some data => ⟨{ st with accounts := data }, data, true, .success⟩
    | none => ⟨st, .arr [], true, .failure "Invalid JSON response"⟩
  else if resp.status = 401 then
    ⟨st, .arr [], true, .failure "Unauthorized - token may be invalid"⟩
  else if resp.status = 404 then
    ⟨st, .arr [], true, .failure "User not found"⟩
  else
    ⟨st, .arr [], true, .failure ("Unexpected status: " ++ toString resp.status)⟩

/-- The classification `ActiveUser.view_and_transfer` applies to the
transfer response: 0 is a transport failure; 200 defers to
`validate_response(response, "transactionStatus")`; on 400 the parsed
body's string form passing a case-insensitive substring test for
`"insufficient"` or `"balance"` counts as an expected business rejection
(a bare `except` turns an unparseable 400 body into a failure); 401 and
everything else fail. -/
def classify_transfer (resp : HttpResponse) : ReqOutcome :=
  if resp.status = 0 then .failure "Connection failed"
  else if resp.status = 200 then
    if validate_response resp (some "transactionStatus") then .success
    else .failure "Transfer did not succeed"
  else if resp.status = 400 then
    match resp.body with
    | some error_data =>
      if strContains (strLower (pyStr error_data)) "insufficient"
          || strContains (strLower (pyStr error_data)) "balance" then
        .success
      else .failure ("Bad request: " ++ pyStr error_data)
    | none => .failure "Bad request"
  else if resp.status = 401 then .failure "Unauthorized"
  else .failure ("Unexpected status: " ++ toString resp.status)

/-- Round-half-to-even to an integer, as Python's `round` ties-to-even
does (the script's amounts are far from float precision issues, so the
rational model is exact on the bounds the claim is about). -/
def roundHalfEven (q : ℚ) : ℤ :=
  if q - ⌊q⌋ < 1 / 2 then ⌊q⌋
  else if q - ⌊q⌋ > 1 / 2 then ⌊q⌋ + 1
  else if ⌊q⌋ % 2 = 0 then ⌊q⌋ else ⌊q⌋ + 1

/-- Python `round(x, 2)`. -/
def pyRound2 (q : ℚ) : ℚ :=
  (roundHalfEven (q * 100) : ℚ) / 100

/-- The transfer request body `view_and_transfer` posts. -/
structure TransferRequest where
  fromAccount : Json
  toAccount : Json
  amount : ℚ
  description : String

/-- The list comprehension
`[acc for acc in accounts if acc.get("accountno") != from_account.get("accountno")]`
given the already-computed `from` account number: each `acc.get` on a
non-dict raises `AttributeError` out of the task. -/
def filterCandidates (fromNo : Json) : List Json → Except PyExn (List Json)
  | [] => .ok []
  | acc :: rest =>
    match pyGet acc "accountno" with
    | .error e => .error e
    | .ok accNo =>
      match filterCandidates fromNo rest with
      | .error e => .error e
      | .ok tail => .ok (if pyEqB accNo fromNo then tail else acc :: tail)

/-- The request-building half of `ActiveUser.view_and_transfer`, given the
value `get_user_accounts` returned and this tick's random draws:
`i` selects `from_account = random.choice(accounts)` (as index `i % len`),
`j` likewise selects `to_account` among the candidates with a different
`accountno` (`random.choice` on an empty candidate list raises), and `u`
is the `random.uniform(1.0, 100.0)` draw.  `none` means no transfer was
posted this tick (too few accounts, a falsy account number, or an
uncaught exception). -/
def view_and_transfer_request (accounts : Json) (i j : Nat) (u : ℚ) :
    Option TransferRequest :=
  match accounts with
  | .arr accs =>
    if pyTruthy (.arr accs) && accs.length ≥ 2 then
      let from_account := accs.getD (i % accs.length) .null
      match pyGet from_account "accountno" with
      | .error _ => none
      | .ok from_account_no =>
        match filterCandidates from_account_no accs with
        | .error _ => none
        | .ok candidates =>
          match candidates with
          | [] => none
          | c :: cs =>
            let to_account := (c :: cs).getD (j % (c :: cs).length) .null
            match pyGet to_account "accountno" with
            | .error _ => none
            | .ok to_account_no =>
              if pyTruthy from_account_no && pyTruthy to_account_no then
                some { fromAccount := from_account_no,
                       toAccount := to_account_no,
                       amount := pyRound2 u,
                       description := "Test transfer from load test" }
              else none
    else none
  | _ => none

/-- `HistoryUser.view_transaction_history`, given the value
`get_user_accounts` returned, the random draw `choice`, and the response
the history request would get.  Returns the account number the history
was requested for (`none` when no request went out) and the reported
outcome.  With a truthy non-list `accounts` value, `random.choice` or
`.get` raises and no request is issued; with no accounts the static
`TEST_ACCOUNTS` fallback is probed and 200 or 404 both count as success. -/
def view_transaction_history (accounts : Json) (choice : Nat) (resp : HttpResponse) :
    Option Json × ReqOutcome :=
  if pyTruthy accounts then
    match accounts with
    | .arr accs =>
      let account := accs.getD (choice % accs.length) .null
      match pyGet account "accountno" with
      | .error _ => (none, .noRecord)
      | .ok account_no =>
        if pyTruthy account_no then
          (some account_no,
            if resp.status = 0 then .failure "Connection failed"
            else if resp.status = 200 then
              match resp.body with
              | some (.arr _) => .success
              | some _ => .failure "Invalid response format - expected list"
              | none => .failure "Invalid JSON response"
            else if resp.status = 401 then .failure "Unauthorized"
            else if resp.status = 404 then .failure "Account not found"
            else .failure ("Unexpected status: " ++ toString resp.status))
        else (none, .noRecord)
    | _ => (none, .noRecord)
  else
    let test_account := TEST_ACCOUNTS.getD (choice % TEST_ACCOUNTS.length) 0
    (some (.num test_account),
      if resp.status = 200 ∨ resp.status = 404 then .success
      else .failure ("Unexpected status: " ++ toString resp.status))

/-- Whether a parsed login body has a `jwtToken` field (at all). -/
def hasJwtToken : Json → Bool
  | .obj fs => (lookupField fs "jwtToken").isSome
  | _ => false

/-- Whether a parsed login body has a `user` object with a `userId` field. -/
def hasUserIdPath : Json → Bool
  | .obj fs =>
    match lookupField fs "user" with
    | some (.obj ufs) => (lookupField ufs "userId").isSome
    | _ => false
  | _ => false

mutual
/-- `pyEqB` is reflexive. -/
theorem pyEqB_refl : (a : Json) → pyEqB a a = true
  | .null => rfl
  | .bool b => by simp [pyEqB]
  | .num n => by simp [pyEqB]
  | .str s => by simp [pyEqB]
  | .arr xs => by simp [pyEqB, pyEqBList_refl xs]
  | .obj fs => by simp [pyEqB, pyEqBFields_refl fs]

/-- `pyEqBList` is reflexive. -/
theorem pyEqBList_refl : (l : List Json) → pyEqBList l l = true
  | [] => rfl
  | x :: xs => by simp [pyEqBList, pyEqB_refl x, pyEqBList_refl xs]

/-- `pyEqBFields` is reflexive. -/
theorem pyEqBFields_refl : (l : List (String × Json)) → pyEqBFields l l = true
  | [] => rfl
  | (k, v) :: fs => by simp [pyEqBFields, pyEqB_refl v, pyEqBFields_refl fs]
end

/-- Values on which `pyEqB` is `false` are distinct. -/
theorem ne_of_pyEqB_false {a b : Json} (h : pyEqB a b = false) : a ≠ b := by
  intro hab
  rw [hab, pyEqB_refl] at h
  exact Bool.noConfusion h

/-- C9: for a status-200 response, `validate_response` returns `True` when
the body fails JSON parsing, and when a `success_field` name is given but
that field is absent or its value is falsy in the parsed JSON; it returns
`False` only for a present, truthy field value whose string form does not
contain `"SUCCESS"` case-insensitively, or for a non-200 status. -/
theorem C9_validate_response_characterization
    (status : Nat) (body : Option Json) (f : Option String) :
    (status = 200 → body = none → validate_response ⟨status, body⟩ f = true) ∧
    (∀ fs fname, status = 200 → body = some (.obj fs) → f = some fname →
      pyTruthy ((lookupField fs fname).getD .null) = false →
      validate_response ⟨status, body⟩ f = true) ∧
    (validate_response ⟨status, body⟩ f = false →
      status ≠ 200 ∨
      ∃ fs fname v, body = some (.obj fs) ∧ f = some fname ∧
        lookupField fs fname = some v ∧ pyTruthy v = true ∧
        strContains (strUpper (pyStr v)) "SUCCESS" = false) := by
  refine ⟨?_, ?_, ?_⟩
  · rintro rfl rfl
    simp [validate_response]
  · rintro fs fname rfl rfl rfl hfalsy
    by_cases hempty : fname = ""
    · simp [validate_response, hempty]
    · simp [validate_response, hempty, pyGet, hfalsy]
  · intro hfalse
    by_cases h200 : status = 200
    · subst h200
      right
      match body with
      | none => simp [validate_response] at hfalse
      | some data =>
        match f with
        | none => simp [validate_response] at hfalse
        | some fname =>
          by_cases hempty : fname = ""
          · subst hempty; simp [validate_response] at hfalse
          · match data with
            | .null | .bool _ | .num _ | .str _ | .arr _ =>
              simp [validate_response, pyGet, hempty] at hfalse
            | .obj fs =>
              refine ⟨fs, fname, (lookupField fs fname).getD .null, rfl, rfl, ?_⟩
              simp only [validate_response, reduceIte, pyGet, hempty, if_false] at hfalse
              by_cases htru : pyTruthy ((lookupField fs fname).getD .null) = true
              · by_cases hsuc :
                    strContains (strUpper (pyStr ((lookupField fs fname).getD .null))) "SUCCESS" = true
                · simp [htru, hsuc] at hfalse
                · refine ⟨?_, htru, by simpa using hsuc⟩
                  cases hlk : lookupField fs fname with
                  | none => rw [hlk] at htru; simp [pyTruthy] at htru
                  | some v => simp [hlk]
              · simp only [Bool.not_eq_true] at htru
                simp [htru] at hfalse
    · exact Or.inl h200

/-- C9 witness: instances of the characterization at concrete inputs. -/
theorem C9_witness :
    validate_response ⟨200, none⟩ (some "transactionStatus") = true ∧
    validate_response ⟨200, some (.obj [("other", .num 1)])⟩ (some "transactionStatus") = true := by
  constructor
  · exact (C9_validate_response_characterization 200 none (some "transactionStatus")).1 rfl rfl
  · exact (C9_validate_response_characterization 200 (some (.obj [("other", .num 1)]))
      (some "transactionStatus")).2.1 [("other", .num 1)] "transactionStatus" rfl rfl rfl (by decide)

/-- C1 counterexample: a 200 transfer response whose body has no
`transactionStatus` field at all is classified a success by
`view_and_transfer`, where the claim requires a failure. -/
theorem C1_counterexample :
    classify_transfer ⟨200, some (.obj [("foo", .str "bar")])⟩ = .success ∧
    lookupField [("foo", .str "bar")] "transactionStatus" = none := by
  exact ⟨by decide, rfl⟩

/-- C1 (amended): a 200 transfer response is classified a success iff,
whenever its body parses to a dict with a present truthy
`transactionStatus` value, that value's string form contains `"SUCCESS"`
case-insensitively; an unparseable body, a non-dict body, and an absent
or falsy field are all classified successes, not failures. -/
theorem C1_transfer_200_classification (body : Option Json) :
    classify_transfer ⟨200, body⟩ = .success ↔
    (∀ fs v, body = some (.obj fs) → lookupField fs "transactionStatus" = some v →
      pyTruthy v = true → strContains (strUpper (pyStr v)) "SUCCESS" = true) := by
  constructor
  · rintro hsucc fs v rfl hlk htru
    by_contra hnot
    simp only [Bool.not_eq_true] at hnot
    simp [classify_transfer, validate_response, pyGet, hlk, htru, hnot] at hsucc
  · intro h
    match body with
    | none => decide
    | some data =>
      match data with
      | .null | .bool _ | .num _ | .str _ | .arr _ =>
        simp [classify_transfer, validate_response, pyGet]
      | .obj fs =>
        simp only [classify_transfer, validate_response, reduceIte]
        cases hlk : lookupField fs "transactionStatus" with
        | none => simp [pyGet, hlk, pyTruthy]
        | some v =>
          by_cases htru : pyTruthy v = true
          · have hs := h fs v rfl hlk htru
            simp [pyGet, hlk, htru, hs]
          · simp only [Bool.not_eq_true] at htru
            simp [pyGet, hlk, htru]

/-- C1 witness: a 200 response whose `transactionStatus` is `"FAILED"`
is not classified a success. -/
theorem C1_witness :
    classify_transfer ⟨200, some (.obj [("transactionStatus", .str "FAILED")])⟩ ≠ .success := by
  intro h
  have := (C1_transfer_200_classification (some (.obj [("transactionStatus", .str "FAILED")]))).mp h
    [("transactionStatus", .str "FAILED")] (.str "FAILED") rfl rfl (by decide)
  exact absurd this (by decide)

/-- C2 counterexample: a 400 transfer response whose body is the JSON
string `"low balance"` — which does not contain `"insufficient balance"`
— is still classified a success, where the claim requires a failure. -/
theorem C2_counterexample :
    classify_transfer ⟨400, some (.str "low balance")⟩ = .success ∧
    strContains (strLower (pyStr (.str "low balance"))) "insufficient balance" = false := by
  decide

/-- C2 (amended): a 400 transfer response is classified a success iff its
body parses and the lowercased string form of the parsed value contains
`"insufficient"` or contains `"balance"`; other parseable 400 bodies and
unparseable 400 bodies are classified failures. -/
theorem C2_transfer_400_classification (body : Option Json) :
    classify_transfer ⟨400, body⟩ = .success ↔
    (∃ d, body = some d ∧
      (strContains (strLower (pyStr d)) "insufficient" = true ∨
       strContains (strLower (pyStr d)) "balance" = true)) := by
  match body with
  | none => simp [classify_transfer]
  | some d =>
    by_cases hins : strContains (strLower (pyStr d)) "insufficient" = true
    · simp [classify_transfer, hins]
    · by_cases hbal : strContains (strLower (pyStr d)) "balance" = true
      · simp [classify_transfer, hins, hbal]
      · simp only [Bool.not_eq_true] at hins hbal
        simp [classify_transfer, hins, hbal]

/-- C2 witness: a 400 response carrying `"insufficient balance"` is
classified a success. -/
theorem C2_witness :
    classify_transfer ⟨400, some (.str "insufficient balance")⟩ = .success :=
  (C2_transfer_400_classification (some (.str "insufficient balance"))).mpr
    ⟨.str "insufficient balance", rfl, Or.inl (by decide)⟩

/-- After `authenticate`, the stored token is the body's `jwtToken` value
exactly when the response was a 200 whose body parsed to a dict; every
other branch leaves the token untouched. -/
theorem authenticate_token (st : Session) (resp : HttpResponse) :
    (authenticate st resp).st.token =
      match resp.status, resp.body with
      | 200, some (.obj fs) => (lookupField fs "jwtToken").getD .null
      | _, _ => st.token := by
  obtain ⟨status, body⟩ := resp
  by_cases h0 : status = 0
  · subst h0
    match body with
    | none => simp [authenticate]
    | some d => simp [authenticate]
  · by_cases h2 : status = 200
    · subst h2
      match body with
      | none => simp [authenticate]
      | some .null => simp [authenticate]
      | some (.bool b) => simp [authenticate]
      | some (.num n) => simp [authenticate]
      | some (.str s) => simp [authenticate]
      | some (.arr xs) => simp [authenticate]
      | some (.obj fs) =>
        simp only [authenticate]
        cases hud : pyGet ((lookupField fs "user").getD (.obj [])) "userId" with
        | error e => simp [hud]
        | ok uid =>
          by_cases htr : (pyTruthy ((lookupField fs "jwtToken").getD .null) && pyTruthy uid) = true
          · simp [hud, htr]
          · simp only [Bool.not_eq_true] at htr
            simp [hud, htr]
    · by_cases h4 : status = 401
      · subst h4
        match body with
        | none => simp [authenticate]
        | some d => cases d <;> simp [authenticate]
      · by_cases h44 : status = 404
        · subst h44
          match body with
          | none => simp [authenticate]
          | some d => cases d <;> simp [authenticate]
        · match body with
          | none => simp [authenticate, h0, h2, h4, h44]
          | some d => cases d <;> simp [authenticate, h0, h2, h4, h44]

/-- C3 counterexample: a 200 login body with a `jwtToken` but no `user`
(hence no `user.userId`) leaves a non-`None` token behind, because
`authenticate` assigns `self.token` before checking `userId`; the call is
reported as a failure yet the session keeps the token. -/
theorem C3_counterexample :
    (authenticate initSession ⟨200, some (.obj [("jwtToken", .str "t")])⟩).st.token = .str "t" ∧
    (authenticate initSession ⟨200, some (.obj [("jwtToken", .str "t")])⟩).st.token ≠ .null ∧
    lookupField [("jwtToken", .str "t")] "user" = none ∧
    (authenticate initSession ⟨200, some (.obj [("jwtToken", .str "t")])⟩).outcome =
      .failure "Missing token or userId in response" := by
  refine ⟨rfl, ?_, rfl, rfl⟩
  intro h
  have he : Json.str "t" = Json.null := h
  exact Json.noConfusion he

/-- C3 (amended): starting from the fresh session, the token is non-`None`
after `authenticate` iff the login response had status 200 and a body
parsing to a dict whose `jwtToken` entry is present and non-null —
`user.userId` plays no role in whether the token is stored, only in
whether the call is reported successful; and `get_user_accounts` never
touches the token. -/
theorem C3_token_invariant :
    (∀ resp : HttpResponse,
      ((authenticate initSession resp).st.token ≠ .null ↔
        (resp.status = 200 ∧ ∃ fs, resp.body = some (.obj fs) ∧
          (lookupField fs "jwtToken").getD .null ≠ .null))) ∧
    (∀ (st : Session) (resp : HttpResponse),
      (get_user_accounts st resp).st.token = st.token) := by
  constructor
  · intro resp
    rw [authenticate_token]
    obtain ⟨status, body⟩ := resp
    by_cases h2 : status = 200
    · subst h2
      match body with
      | none => simp [initSession]
      | some .null => simp [initSession]
      | some (.bool b) => simp [initSession]
      | some (.num n) => simp [initSession]
      | some (.str s) => simp [initSession]
      | some (.arr xs) => simp [initSession]
      | some (.obj fs) => simp
    · match body with
      | none => simp [initSession, h2]
      | some d => cases d <;> simp [initSession, h2]
  · intro st resp
    unfold get_user_accounts
    by_cases hu : pyTruthy st.user_id
    · by_cases ha : pyTruthy st.accounts
      · simp [hu, ha]
      · by_cases h0 : resp.status = 0
        · simp [hu, ha, h0]
        · by_cases h2 : resp.status = 200
          · cases hb : resp.body with
            | none => simp [hu, ha, h0, h2, hb]
            | some d => simp [hu, ha, h0, h2, hb]
          · by_cases h4 : resp.status = 401
            · simp [hu, ha, h0, h2, h4]
            · by_cases h44 : resp.status = 404
              · simp [hu, ha, h0, h2, h4, h44]
              · simp [hu, ha, h0, h2, h4, h44]
    · simp [hu]

/-- C3 witness: a 200 login with both fields yields a non-null token, and
a 401 login leaves the token `None`. -/
theorem C3_witness :
    (authenticate initSession
      ⟨200, some (.obj [("jwtToken", .str "t"),
        ("user", .obj [("userId", .num 9)])])⟩).st.token ≠ .null ∧
    ¬ ((authenticate initSession ⟨401, some (.obj [])⟩).st.token ≠ .null) := by
  constructor
  · exact (C3_token_invariant.1 ⟨200, some (.obj [("jwtToken", .str "t"),
      ("user", .obj [("userId", .num 9)])])⟩).mpr
      ⟨rfl, [("jwtToken", .str "t"), ("user", .obj [("userId", .num 9)])], rfl,
        fun h => Json.noConfusion h⟩
  · intro hne
    have := (C3_token_invariant.1 ⟨401, some (.obj [])⟩).mp hne
    exact absurd this.1 (by decide)

/-- C4: whenever the login response has status 200 but its parsed body
lacks the `jwtToken` field or the `user.userId` field, `authenticate`
reports the request as a failure, never a success. -/
theorem C4_login_missing_fields_failure (st : Session) (d : Json)
    (h : hasJwtToken d = false ∨ hasUserIdPath d = false) :
    ((authenticate st ⟨200, some d⟩).outcome).isFailure = true := by
  match d with
  | .null | .bool _ | .num _ | .str _ | .arr _ =>
    simp [authenticate, ReqOutcome.isFailure]
  | .obj fs =>
    simp only [authenticate, reduceIte]
    cases hlk : lookupField fs "jwtToken" with
    | none =>
      cases hud : pyGet ((lookupField fs "user").getD (.obj [])) "userId" with
      | error e => simp [hud, ReqOutcome.isFailure]
      | ok uid => simp [hud, hlk, pyTruthy, ReqOutcome.isFailure]
    | some tv =>
      have hpath : hasUserIdPath (.obj fs) = false := by
        rcases h with hjt | hup
        · simp [hasJwtToken, hlk] at hjt
        · exact hup
      cases hu : lookupField fs "user" with
      | none =>
        simp [hu, hlk, pyGet, lookupField, pyTruthy, ReqOutcome.isFailure]
      | some ud =>
        match ud with
        | .null | .bool _ | .num _ | .str _ | .arr _ =>
          simp [hu, pyGet, ReqOutcome.isFailure]
        | .obj ufs =>
          have hid : lookupField ufs "userId" = none := by
            simp [hasUserIdPath, hu] at hpath
            exact Option.eq_none_of_isNone (by simpa using hpath)
          simp [hu, hid, pyGet, pyTruthy, ReqOutcome.isFailure]

/-- C4 witness: a 200 login whose body misses `user.userId` is reported
as a failure. -/
theorem C4_witness :
    (hasJwtToken (.obj [("jwtToken", .str "t")]) = false ∨
      hasUserIdPath (.obj [("jwtToken", .str "t")]) = false) ∧
    ((authenticate initSession ⟨200, some (.obj [("jwtToken", .str "t")])⟩).outcome).isFailure
      = true :=
  ⟨Or.inr (by decide),
    C4_login_missing_fields_failure initSession (.obj [("jwtToken", .str "t")])
      (Or.inr (by decide))⟩

/-- C8 counterexample: on a 200 login body whose `user` entry is a string,
`user_data.get("userId")` raises `AttributeError` *after* `self.token` was
assigned; the exception is caught, yet the session is left with a token,
and `get_headers` then carries an `Authorization` header — against the
claim that any execution raising an exception leaves the token `None`. -/
theorem C8_counterexample :
    (authenticate initSession
      ⟨200, some (.obj [("jwtToken", .str "t"), ("user", .str "x")])⟩).raised = true ∧
    (authenticate initSession
      ⟨200, some (.obj [("jwtToken", .str "t"), ("user", .str "x")])⟩).st.token = .str "t" ∧
    ("Authorization", "Bearer t") ∈ get_headers
      (authenticate initSession
        ⟨200, some (.obj [("jwtToken", .str "t"), ("user", .str "x")])⟩).st := by
  exact ⟨rfl, rfl, by decide⟩

/-- C8 (amended): `authenticate` always records an outcome (no exception
escapes to the caller), and a raised-and-caught exception always yields a
recorded failure; when the exception occurs before a `jwtToken` could be
extracted — unparseable body or a body that is not a dict — the fresh
session's token stays `None` and `get_headers` carries no `Authorization`
entry.  (A body parsing to a dict whose `user` entry is a non-dict raises
only after the token assignment, so the token can survive; see the
counterexample.) -/
theorem C8_auth_exception_handling (resp : HttpResponse) :
    ((authenticate initSession resp).outcome ≠ .noRecord) ∧
    ((authenticate initSession resp).raised = true →
      ((authenticate initSession resp).outcome).isFailure = true) ∧
    ((authenticate initSession resp).raised = true →
      (∀ fs, resp.body ≠ some (.obj fs)) →
      (authenticate initSession resp).st.token = .null ∧
      ∀ p ∈ get_headers (authenticate initSession resp).st, p.1 ≠ "Authorization") := by
  have hcase :
      ((authenticate initSession resp).outcome ≠ .noRecord) ∧
      ((authenticate initSession resp).raised = true →
        ((authenticate initSession resp).outcome).isFailure = true) := by
    obtain ⟨status, body⟩ := resp
    by_cases h0 : status = 0
    · subst h0; simp [authenticate, ReqOutcome.isFailure]
    · by_cases h2 : status = 200
      · subst h2
        match body with
        | none => simp [authenticate, ReqOutcome.isFailure]
        | some .null => simp [authenticate, ReqOutcome.isFailure]
        | some (.bool b) => simp [authenticate, ReqOutcome.isFailure]
        | some (.num n) => simp [authenticate, ReqOutcome.isFailure]
        | some (.str s) => simp [authenticate, ReqOutcome.isFailure]
        | some (.arr xs) => simp [authenticate, ReqOutcome.isFailure]
        | some (.obj fs) =>
          simp only [authenticate, reduceIte]
          cases hud : pyGet ((lookupField fs "user").getD (.obj [])) "userId" with
          | error e => simp [hud, ReqOutcome.isFailure]
          | ok uid =>
            by_cases htr : (pyTruthy ((lookupField fs "jwtToken").getD .null)
                && pyTruthy uid) = true
            · simp [hud, htr, ReqOutcome.isFailure]
            · simp only [Bool.not_eq_true] at htr
              simp [hud, htr, ReqOutcome.isFailure]
      · by_cases h4 : status = 401
        · subst h4; simp [authenticate, h0, ReqOutcome.isFailure]
        · by_cases h44 : status = 404
          · subst h44; simp [authenticate, h0, h2, ReqOutcome.isFailure]
          · simp [authenticate, h0, h2, h4, h44, ReqOutcome.isFailure]
  refine ⟨hcase.1, hcase.2, ?_⟩
  intro _ hnotobj
  have htok : (authenticate initSession resp).st.token = .null := by
    rw [authenticate_token]
    obtain ⟨status, body⟩ := resp
    by_cases h2 : status = 200
    · subst h2
      match body with
      | none => simp [initSession]
      | some .null => simp [initSession]
      | some (.bool b) => simp [initSession]
      | some (.num n) => simp [initSession]
      | some (.str s) => simp [initSession]
      | some (.arr xs) => simp [initSession]
      | some (.obj fs) => exact absurd rfl (hnotobj fs)
    · match body with
      | none => simp [initSession, h2]
      | some d => cases d <;> simp [initSession, h2]
  refine ⟨htok, ?_⟩
  intro p hp
  simp only [get_headers, htok, pyTruthy] at hp
  simp only [Bool.false_eq_true, if_false, List.mem_singleton] at hp
  subst hp
  decide

/-- C8 witness: a 200 response with an unparseable body raises and is
caught, the outcome is a failure, and the session keeps no token. -/
theorem C8_witness :
    (authenticate initSession ⟨200, none⟩).outcome ≠ .noRecord ∧
    ((authenticate initSession ⟨200, none⟩).outcome).isFailure = true ∧
    (authenticate initSession ⟨200, none⟩).st.token = .null := by
  have h := C8_auth_exception_handling ⟨200, none⟩
  exact ⟨h.1, h.2.1 rfl, (h.2.2 rfl (fun fs hc => Option.noConfusion hc)).1⟩

/-- C10: `get_headers` always contains `Content-Type: application/json`;
when the token is `None` no `Authorization` entry is present, and for a
string token the entry `Authorization: Bearer <token>` is present iff the
token is non-empty. -/
theorem C10_get_headers (st : Session) :
    ("Content-Type", "application/json") ∈ get_headers st ∧
    (st.token = .null → ∀ p ∈ get_headers st, p.1 ≠ "Authorization") ∧
    (∀ s, st.token = .str s →
      ((("Authorization", "Bearer " ++ s) ∈ get_headers st) ↔ s ≠ "")) := by
  refine ⟨?_, ?_, ?_⟩
  · by_cases h : pyTruthy st.token = true
    · simp [get_headers, h]
    · simp only [Bool.not_eq_true] at h
      simp [get_headers, h]
  · intro hnull p hp
    simp only [get_headers, hnull, pyTruthy] at hp
    simp only [Bool.false_eq_true, if_false, List.mem_singleton] at hp
    subst hp
    decide
  · intro s hs
    constructor
    · intro hmem hemp
      subst hemp
      simp [get_headers, hs, pyTruthy] at hmem
    · intro hne
      have htr : pyTruthy (Json.str s) = true := by
        simpa [pyTruthy] using hne
      simp [get_headers, htr, hs, pyStr]

/-- C10 witness: with a concrete non-empty string token both headers are
present; with a `None` token the `Content-Type` header is still there. -/
theorem C10_witness :
    ("Authorization", "Bearer tok123") ∈
      get_headers { token := .str "tok123", user_id := .null, accounts := .arr [] } ∧
    ("Content-Type", "application/json") ∈
      get_headers { token := .null, user_id := .null, accounts := .arr [] } := by
  constructor
  · exact ((C10_get_headers
      { token := .str "tok123", user_id := .null, accounts := .arr [] }).2.2
        "tok123" rfl).mpr (by decide)
  · exact (C10_get_headers { token := .null, user_id := .null, accounts := .arr [] }).1

/-- C5: `get_user_accounts` returns the cached list, unchanged and without
any HTTP fetch, whenever `self.user_id` is truthy and a non-empty account
list is already cached; a falsy `user_id` returns `[]` without fetching;
and every fetch outcome other than a parseable 200 returns `[]`.  A 200
with parsed body `d` caches `d` and returns it. -/
theorem C5_account_cache (st : Session) (resp : HttpResponse) :
    (pyTruthy st.user_id = true → ∀ l, st.accounts = .arr l → l ≠ [] →
      get_user_accounts st resp = ⟨st, st.accounts, false, .noRecord⟩) ∧
    (pyTruthy st.user_id = true → pyTruthy st.accounts = false →
      resp.status = 200 → ∀ d, resp.body = some d →
      get_user_accounts st resp = ⟨{ st with accounts := d }, d, true, .success⟩) ∧
    (pyTruthy st.user_id = false →
      (get_user_accounts st resp).ret = .arr [] ∧
      (get_user_accounts st resp).fetched = false) ∧
    (pyTruthy st.user_id = true → pyTruthy st.accounts = false →
      (resp.status = 0 ∨ (resp.status = 200 ∧ resp.body = none) ∨
        (resp.status ≠ 0 ∧ resp.status ≠ 200)) →
      (get_user_accounts st resp).ret = .arr []) := by
  refine ⟨?_, ?_, ?_, ?_⟩
  · intro hu l hl hne
    have ha : pyTruthy st.accounts = true := by
      rw [hl]
      simpa [pyTruthy] using hne
    simp [get_user_accounts, hu, ha]
  · intro hu ha h200 d hd
    by_cases h0 : resp.status = 0
    · rw [h0] at h200; exact absurd h200.symm (by decide)
    · simp [get_user_accounts, hu, ha, h0, h200, hd]
  · intro hu
    simp [get_user_accounts, hu]
  · intro hu ha hcase
    rcases hcase with h0 | ⟨h200, hnone⟩ | ⟨h0, h200⟩
    · simp [get_user_accounts, hu, ha, h0]
    · by_cases h0 : resp.status = 0
      · rw [h0] at h200; exact absurd h200.symm (by decide)
      · simp [get_user_accounts, hu, ha, h0, h200, hnone]
    · by_cases h4 : resp.status = 401
      · simp [get_user_accounts, hu, ha, h0, h200, h4]
      · by_cases h44 : resp.status = 404
        · simp [get_user_accounts, hu, ha, h0, h200, h4, h44]
        · simp [get_user_accounts, hu, ha, h0, h200, h4, h44]

/-- C5 witness: with a cached single-account list, a call returns the
cache without fetching even though a (hypothetical) fetch response is at
hand; with `user_id` unset the result is `[]` without fetching. -/
theorem C5_witness :
    get_user_accounts
        { token := .str "t", user_id := .num 7,
          accounts := .arr [.obj [("accountno", .num 1000001)]] }
        ⟨200, some (.arr [])⟩ =
      ⟨{ token := .str "t", user_id := .num 7,
          accounts := .arr [.obj [("accountno", .num 1000001)]] },
        .arr [.obj [("accountno", .num 1000001)]], false, .noRecord⟩ ∧
    (get_user_accounts
        { token := .null, user_id := .null, accounts := .arr [] }
        ⟨200, some (.arr [.obj []])⟩).ret = .arr [] := by
  constructor
  · exact (C5_account_cache
      { token := .str "t", user_id := .num 7,
        accounts := .arr [.obj [("accountno", .num 1000001)]] }
      ⟨200, some (.arr [])⟩).1 (by decide) [.obj [("accountno", .num 1000001)]] rfl
      (by simp)
  · exact ((C5_account_cache
      { token := .null, user_id := .null, accounts := .arr [] }
      ⟨200, some (.arr [.obj []])⟩).2.2.1 (by decide)).1

/-- C7: with zero cached accounts, `view_transaction_history` probes one
of the three static test accounts and reports success exactly for HTTP
status 200 or 404. -/
theorem C7_history_fallback (choice : Nat) (resp : HttpResponse) :
    (∃ t, (view_transaction_history (.arr []) choice resp).1 = some (.num t) ∧
      t ∈ TEST_ACCOUNTS) ∧
    ((view_transaction_history (.arr []) choice resp).2 = .success ↔
      (resp.status = 200 ∨ resp.status = 404)) := by
  constructor
  · refine ⟨TEST_ACCOUNTS.getD (choice % TEST_ACCOUNTS.length) 0, ?_, ?_⟩
    · simp [view_transaction_history, pyTruthy]
    · have hlt : choice % TEST_ACCOUNTS.length < TEST_ACCOUNTS.length :=
        Nat.mod_lt _ (by decide)
      rw [List.getD_eq_getElem TEST_ACCOUNTS 0 hlt]
      exact List.getElem_mem hlt
  · by_cases hok : resp.status = 200 ∨ resp.status = 404
    · simp [view_transaction_history, pyTruthy, hok]
    · simp [view_transaction_history, pyTruthy, hok]

/-- C7 witness: a 404 on the fallback probe counts as success, a 500 does
not. -/
theorem C7_witness :
    (view_transaction_history (.arr []) 5 ⟨404, none⟩).2 = .success ∧
    ¬ (view_transaction_history (.arr []) 5 ⟨500, none⟩).2 = .success := by
  constructor
  · exact (C7_history_fallback 5 ⟨404, none⟩).2.mpr (Or.inr rfl)
  · intro h
    have := (C7_history_fallback 5 ⟨500, none⟩).2.mp h
    rcases this with h2 | h2 <;> exact absurd h2 (by decide)

/-- `roundHalfEven` never exceeds an integer bound that the argument
respects. -/
theorem roundHalfEven_le {x : ℚ} {hi : ℤ} (hhi : x ≤ (hi : ℚ)) :
    roundHalfEven x ≤ hi := by
  have hfl : ⌊x⌋ ≤ hi := by
    have h := Int.floor_le_floor hhi
    simpa using h
  have hfx : (⌊x⌋ : ℚ) ≤ x := Int.floor_le x
  unfold roundHalfEven
  split_ifs with hc1 hc2 hc3
  · exact hfl
  · have hlt : (⌊x⌋ : ℚ) < (hi : ℚ) := by linarith
    have : ⌊x⌋ < hi := by exact_mod_cast hlt
    omega
  · exact hfl
  · have heq : x - ⌊x⌋ = 1 / 2 := by
      push_neg at hc1 hc2
      linarith
    have hlt : (⌊x⌋ : ℚ) < (hi : ℚ) := by linarith
    have : ⌊x⌋ < hi := by exact_mod_cast hlt
    omega

/-- `roundHalfEven` never undershoots an integer bound that the argument
respects. -/
theorem roundHalfEven_ge {x : ℚ} {lo : ℤ} (hlo : (lo : ℚ) ≤ x) :
    lo ≤ roundHalfEven x := by
  have hfl : lo ≤ ⌊x⌋ := Int.le_floor.mpr hlo
  unfold roundHalfEven
  split_ifs <;> omega

/-- `round(x, 2)` of a draw in `[1, 100]` stays in `[1, 100]` and is an
integer number of hundredths. -/
theorem pyRound2_bounds {u : ℚ} (h1 : 1 ≤ u) (h2 : u ≤ 100) :
    1 ≤ pyRound2 u ∧ pyRound2 u ≤ 100 ∧ ∃ n : ℤ, pyRound2 u = (n : ℚ) / 100 := by
  have hlo : ((100 : ℤ) : ℚ) ≤ u * 100 := by push_cast; linarith
  have hhi : u * 100 ≤ ((10000 : ℤ) : ℚ) := by push_cast; linarith
  have hge := roundHalfEven_ge hlo
  have hle := roundHalfEven_le hhi
  unfold pyRound2
  refine ⟨?_, ?_, ⟨roundHalfEven (u * 100), rfl⟩⟩
  · rw [le_div_iff₀ (by norm_num)]
    have hc : ((100 : ℤ) : ℚ) ≤ (roundHalfEven (u * 100) : ℚ) := by exact_mod_cast hge
    push_cast at hc ⊢
    linarith
  · rw [div_le_iff₀ (by norm_num)]
    have hc : ((roundHalfEven (u * 100) : ℤ) : ℚ) ≤ ((10000 : ℤ) : ℚ) := by
      exact_mod_cast hle
    push_cast at hc ⊢
    linarith

/-- Every account the transfer candidate filter keeps has an `accountno`
that compares unequal (Python `!=`) to the source's. -/
theorem filterCandidates_mem {fromNo : Json} :
    ∀ {accs cands : List Json}, filterCandidates fromNo accs = .ok cands →
      ∀ a ∈ cands, ∃ v, pyGet a "accountno" = .ok v ∧ pyEqB v fromNo = false := by
  intro accs
  induction accs with
  | nil =>
    intro cands h a ha
    simp only [filterCandidates] at h
    cases h
    simp at ha
  | cons acc rest ih =>
    intro cands h a ha
    simp only [filterCandidates] at h
    cases hg : pyGet acc "accountno" with
    | error e => rw [hg] at h; exact absurd h (by simp)
    | ok accNo =>
      rw [hg] at h
      cases hr : filterCandidates fromNo rest with
      | error e => rw [hr] at h; exact absurd h (by simp)
      | ok tail =>
        rw [hr] at h
        by_cases heq : pyEqB accNo fromNo = true
        · simp only [heq, if_true, Except.ok.injEq] at h
          subst h
          exact ih hr a ha
        · simp only [Bool.not_eq_true] at heq
          simp only [heq, Bool.false_eq_true, if_false, Except.ok.injEq] at h
          subst h
          rcases ha with _ | ⟨_, hmem⟩
          · exact ⟨accNo, hg, heq⟩
          · exact ih hr a hmem

/-- C6: whenever `view_and_transfer` builds a transfer request, the
fetched account value was a list of at least two accounts, the request's
`fromAccount` and `toAccount` are distinct `accountno` values, and (for a
uniform draw in `[1, 100]`, which is `random.uniform(1.0, 100.0)`'s
contract) the amount lies in `[1, 100]` and has two decimal places. -/
theorem C6_transfer_request_shape (accounts : Json) (i j : Nat) (u : ℚ)
    (req : TransferRequest) (h1 : 1 ≤ u) (h2 : u ≤ 100)
    (hreq : view_and_transfer_request accounts i j u = some req) :
    (∃ accs, accounts = .arr accs ∧ 2 ≤ accs.length) ∧
    req.fromAccount ≠ req.toAccount ∧
    1 ≤ req.amount ∧ req.amount ≤ 100 ∧
    ∃ n : ℤ, req.amount = (n : ℚ) / 100 := by
  match accounts with
  | .null | .bool _ | .num _ | .str _ | .obj _ =>
    simp [view_and_transfer_request] at hreq
  | .arr accs =>
    simp only [view_and_transfer_request] at hreq
    by_cases hlen : (pyTruthy (.arr accs) && decide (accs.length ≥ 2)) = true
    · rw [if_pos hlen] at hreq
      have hlen2 : 2 ≤ accs.length := by
        have := (Bool.and_eq_true _ _).mp hlen
        exact of_decide_eq_true this.2
      cases hgf : pyGet (accs.getD (i % accs.length) .null) "accountno" with
      | error e => rw [hgf] at hreq; exact absurd hreq (by simp)
      | ok from_account_no =>
        rw [hgf] at hreq
        dsimp only at hreq
        cases hfc : filterCandidates from_account_no accs with
        | error e => rw [hfc] at hreq; exact absurd hreq (by simp)
        | ok candidates =>
          rw [hfc] at hreq
          dsimp only at hreq
          match candidates, hfc with
          | [], hfc => exact absurd hreq (by simp)
          | c :: cs, hfc =>
            dsimp only at hreq
            cases hgt : pyGet ((c :: cs).getD (j % (c :: cs).length) .null) "accountno" with
            | error e => rw [hgt] at hreq; exact absurd hreq (by simp)
            | ok to_account_no =>
              rw [hgt] at hreq
              dsimp only at hreq
              by_cases htru : (pyTruthy from_account_no && pyTruthy to_account_no) = true
              · rw [if_pos htru, Option.some.injEq] at hreq
                subst hreq
                have hmem : (c :: cs).getD (j % (c :: cs).length) .null ∈ c :: cs := by
                  have hlt : j % (c :: cs).length < (c :: cs).length :=
                    Nat.mod_lt _ (by simp)
                  rw [List.getD_eq_getElem (c :: cs) .null hlt]
                  exact List.getElem_mem hlt
                obtain ⟨v, hv, hvne⟩ := filterCandidates_mem hfc _ hmem
                have hveq : v = to_account_no := by
                  rw [hv] at hgt
                  exact Except.ok.inj hgt
                subst hveq
                obtain ⟨hb1, hb2, hb3⟩ := pyRound2_bounds h1 h2
                refine ⟨⟨accs, rfl, hlen2⟩, ?_, hb1, hb2, hb3⟩
                exact fun hfe => (ne_of_pyEqB_false hvne) (Eq.symm hfe)
              · rw [if_neg (by simpa using htru)] at hreq
                exact absurd hreq (by simp)
    · rw [if_neg hlen] at hreq
      exact absurd hreq (by simp)

/-- C6 witness: a concrete two-account list, index draws 0/0 and a draw of
50 produce a request from account 1 to account 2 with an in-range
amount. -/
theorem C6_witness :
    view_and_transfer_request
        (.arr [.obj [("accountno", .num 1)], .obj [("accountno", .num 2)]]) 0 0 50 =
      some { fromAccount := .num 1, toAccount := .num 2, amount := pyRound2 50,
             description := "Test transfer from load test" } ∧
    Json.num 1 ≠ Json.num 2 ∧ 1 ≤ pyRound2 50 ∧ pyRound2 50 ≤ 100 := by
  have h := C6_transfer_request_shape
    (.arr [.obj [("accountno", .num 1)], .obj [("accountno", .num 2)]]) 0 0 50
    { fromAccount := .num 1, toAccount := .num 2, amount := pyRound2 50,
      description := "Test transfer from load test" }
    (by norm_num) (by norm_num) rfl
  exact ⟨rfl, h.2.1, h.2.2.1, h.2.2.2.1⟩
